import Mathlib

/-!
Verification development for the Near-Earth-Objects-API job subsystem.

Shallow embedding of `src/jobs.py`, `src/utils.py`, `src/worker.py` and the
job routes of `src/NEO_api.py`.  The Redis databases are modelled as keyed
stores (`String → Option α`):

* `rd`  (db 0) — the object catalog, a list of key/record pairs, read-only
  for the worker;
* the HotQueue (db 1) — a FIFO `List String` of job ids;
* `jdb` (db 2) — job records;
* `rdb` (db 3) — job results.

Job records are the dictionaries written by `jobs._instantiate_job`:
`{'id', 'status', 'start', 'end', 'kind'}`, all strings, serialized with
`json.dumps` and parsed back with `json.loads`; since serialization composes
to the identity on that domain, the store holds the record itself.

Numeric NEO fields (velocities, distances, magnitudes, rarity) are modelled
as integers: the claims depend only on whether `float(...)` succeeds, never
on the magnitudes themselves.  UUID generation (`jobs._generate_jid`) is
nondeterministic; the fresh id is passed as an explicit argument, and
freshness (`uuid4` never colliding with an existing key) is a hypothesis
where a claim relies on it.
-/

/-- A Redis keyed store: `get` is application, `set` overwrites one key. -/
abbrev Store (α : Type) := String → Option α

def Store.set (st : Store α) (k : String) (v : α) : Store α :=
  fun x => if x = k then some v else st x

def Store.empty : Store α := fun _ => none

/-- JSON values, the domain of `json.dumps`/`json.loads`. -/
inductive JVal where
  | null
  | bool (b : Bool)
  | num (n : Int)
  | str (s : String)
  | arr (elems : List JVal)
  | obj (fields : List (String × JVal))

/-- The job dictionary built by `jobs._instantiate_job`. -/
structure JobRec where
  id : String
  status : String
  start : String
  «end» : String
  kind : String
deriving DecidableEq

/-- A value of one of the numeric NEO fields as found in a catalog record:
absent, a value `float()` converts, or a value on which `float()` raises
(`ValueError`/`TypeError`, e.g. a non-numeric string or JSON null). -/
inductive FieldVal where
  | missing
  | num (n : Int)
  | bad
deriving DecidableEq

/-- One record of the object catalog (db 0), with exactly the fields
`worker.do_work` reads.  `caDate` is `'Close-Approach (CA) Date'`;
`none` covers both an absent key (`.get` default `''`) and a JSON null. -/
structure NeoRec where
  caDate : Option String
  vRel : FieldVal
  distNom : FieldVal
  distMin : FieldVal
  hmag : FieldVal
  rarity : FieldVal
deriving DecidableEq

/-- The numeric series one usable catalog record contributes
(`velocities`/`distances`/`mags`/`raritys`/`days` in `worker.do_work`). -/
structure NeoPoint where
  velocity : Int
  distance : Int
  hmag : Int
  rarity : Int
  day : Nat
deriving DecidableEq

/-- A value held by the results database (db 3): either a JSON document
written by `jobs.store_job_result`, or the PNG bytes of a rendered figure
written by the worker.  The figure is the deterministic image of the kind
and the filtered numeric series (the plotting layer is an external
collaborator per the spec), and PNG bytes are never valid JSON. -/
inductive RVal where
  | json (v : JVal)
  | plot (kind : String) (pts : List NeoPoint)

/-- A Python value passed to `jobs.store_job_result`: JSON-serializable, or
raw `bytes`, on which `json.dumps` raises `TypeError`. -/
inductive Payload where
  | jval (v : JVal)
  | bytes (bs : List Nat)

/-- A calendar date as produced by `datetime.strptime(_, "%Y-%b-%d")`. -/
structure Date where
  year : Nat
  month : Nat
  day : Nat
deriving DecidableEq

/-- `datetime` comparison restricted to dates: lexicographic on
(year, month, day). -/
def dateLe (a b : Date) : Bool :=
  if a.year ≠ b.year then decide (a.year < b.year)
  else if a.month ≠ b.month then decide (a.month < b.month)
  else decide (a.day ≤ b.day)

/-! ## String primitives

Structurally recursive implementations of the Python string operations the
code uses (`str.split`, `str.strip`, `str.lower`, `int`, containment), over
the character list underlying a `String`. -/

/-- `str.split(sep)` for a one-character separator: always a nonempty list
of (possibly empty) pieces. -/
def split_chars_by (p : Char → Bool) : List Char → List (List Char)
  | [] => [[]]
  | x :: xs =>
    match split_chars_by p xs with
    | [] => [[x]]
    | h :: t => if p x then [] :: h :: t else (x :: h) :: t

def chars_str (l : List Char) : String := ⟨l⟩

def str_split_on (c : Char) (s : String) : List String :=
  (split_chars_by (fun x => x == c) s.data).map chars_str

/-- Python `str.split()` (no argument): split on whitespace runs, dropping
empty pieces. -/
def str_split_ws (s : String) : List String :=
  ((split_chars_by Char.isWhitespace s.data).map chars_str).filter (fun p => p ≠ "")

/-- Python `str.strip()`. -/
def str_trim (s : String) : String :=
  ⟨((s.data.dropWhile Char.isWhitespace).reverse.dropWhile Char.isWhitespace).reverse⟩

def str_contains_char (s : String) (c : Char) : Bool :=
  s.data.any (fun x => x == c)

def str_to_lower (s : String) : String :=
  ⟨s.data.map Char.toLower⟩

def str_all_digits (s : String) : Bool :=
  s.data.all Char.isDigit

/-- `int(s)` on a nonempty all-digit string (the only shape the code feeds
it after its guards); `none` otherwise. -/
def str_to_nat? (s : String) : Option Nat :=
  if s.data ≠ [] ∧ str_all_digits s then
    some (s.data.foldl (fun a c => a * 10 + (c.toNat - 48)) 0)
  else none

/-! ## utils.py -/

/-- The month abbreviations recognized by `%b` (matched case-insensitively
by `strptime`). -/
def month_from_abbrev (s : String) : Option Nat :=
  match str_to_lower s with
  | "jan" => some 1
  | "feb" => some 2
  | "mar" => some 3
  | "apr" => some 4
  | "may" => some 5
  | "jun" => some 6
  | "jul" => some 7
  | "aug" => some 8
  | "sep" => some 9
  | "oct" => some 10
  | "nov" => some 11
  | "dec" => some 12
  | _ => none

def is_leap (y : Nat) : Bool :=
  (y % 4 == 0 && y % 100 != 0) || y % 400 == 0

def days_in_month (y m : Nat) : Nat :=
  if m == 2 then (if is_leap y then 29 else 28)
  else if m == 4 || m == 6 || m == 9 || m == 11 then 30
  else 31

/-- `utils.parse_date`: `datetime.strptime(date_str.strip(), "%Y-%b-%d")`,
returning `none` where the Python code raises `ValueError`.  `%Y` consumes
exactly four digits, `%b` a month abbreviation, `%d` one or two digits, the
whole string must be consumed, and the `datetime` constructor rejects
year 0, day 0 and days beyond the month's length. -/
def parse_date (date_str : String) : Option Date :=
  match str_split_on '-' (str_trim date_str) with
  | [ys, ms, ds] =>
    if ys.length == 4 && str_all_digits ys
        && (ds.length == 1 || ds.length == 2) && str_all_digits ds then
      match str_to_nat? ys, month_from_abbrev ms, str_to_nat? ds with
      | some y, some m, some d =>
        if 1 ≤ y ∧ 1 ≤ d ∧ d ≤ days_in_month y m then some ⟨y, m, d⟩ else none
      | _, _, _ => none
    else none
  | _ => none

/-- `utils.clean_to_date_only`: drop any `±`-uncertainty suffix, then keep
only the first whitespace-separated token. -/
def clean_to_date_only (time : String) : String :=
  if time = "" then " "
  else
    let t := if str_contains_char time '±' then str_trim ((str_split_on '±' time).headD "")
             else time
    match str_split_ws t with
    | [] => str_trim t
    | p :: _ => p

/-! ## System state -/

/-- The shared state: object catalog (db 0), work queue (db 1), job record
store `jdb` (db 2), result store `rdb` (db 3).  `HotQueue.put` appends;
the worker consumes from the front. -/
structure Sys where
  catalog : List (String × NeoRec)
  queue : List String
  jdb : Store JobRec
  rdb : Store RVal

/-! ## jobs.py -/

/-- `jobs._instantiate_job`. -/
def _instantiate_job (jid status start endd kind : String) : JobRec :=
  ⟨jid, status, start, endd, kind⟩

/-- `jobs._save_job`: `jdb.set(jid, json.dumps(job_dict))`. -/
def _save_job (jdb : Store JobRec) (jid : String) (job_dict : JobRec) : Store JobRec :=
  jdb.set jid job_dict

/-- `jobs._queue_job`: `q.put(jid)`. -/
def _queue_job (q : List String) (jid : String) : List String :=
  q ++ [jid]

/-- `jobs.add_job` with the default `status="submitted"`. The generated
UUID is the explicit argument `jid`.  The record is saved first, then the
id is queued; the created job dictionary is returned. -/
def add_job (s : Sys) (jid start endd kind : String) : Sys × JobRec :=
  let job_dict := _instantiate_job jid "submitted" start endd kind
  ({ s with jdb := _save_job s.jdb jid job_dict,
            queue := _queue_job s.queue jid }, job_dict)

/-- `jobs.get_job_by_id`: returns `None` when the key is absent. -/
def get_job_by_id (jdb : Store JobRec) (jid : String) : Option JobRec :=
  jdb jid

/-- `jobs.update_job_status`: re-save with the new status if the record
exists, otherwise `raise Exception()` (modelled as `.error ()`); on that
path nothing is written. -/
def update_job_status (jdb : Store JobRec) (jid status : String) :
    Except Unit (Store JobRec) :=
  match get_job_by_id jdb jid with
  | some job_dict => .ok (_save_job jdb jid { job_dict with status := status })
  | none => .error ()

/-- `jobs.store_job_result`: `rdb.set(job_id, json.dumps(result))`.  On a
`bytes` payload `json.dumps` raises `TypeError`, the bare `except` prints
the error, and nothing is stored. -/
def store_job_result (rdb : Store RVal) (job_id : String) (result : Payload) :
    Store RVal :=
  match result with
  | .jval v => rdb.set job_id (.json v)
  | .bytes _ => rdb

/-- `jobs.get_job_result`: `json.loads(rdb.get(job_id))`, `None` when the
key is absent; `json.loads` of binary plot data raises and the handler
returns `None`. -/
def get_job_result (rdb : Store RVal) (job_id : String) : Option JVal :=
  match rdb job_id with
  | none => none
  | some (.json v) => some v
  | some (.plot _ _) => none

/-! ## worker.py -/

/-- `float(neo.get(key, 0))`: the default 0 when the key is absent, the
value when it converts, failure (skipping the record) otherwise. -/
def py_float : FieldVal → Option Int
  | .missing => some 0
  | .num n => some n
  | .bad => none

/-- `float(neo.get("CA DistanceNominal (au)", neo.get("CA DistanceMinimum (au)", 0)))`:
the nominal distance, falling back to the minimum distance, then to 0. -/
def py_float_dist (nom mn : FieldVal) : Option Int :=
  match nom with
  | .missing => py_float mn
  | .num n => some n
  | .bad => none

/-- One iteration of the scan loop in `worker.do_work` (lines 75–119):
skip a record with an empty/absent date, an unparseable date, or a date
outside `[start_date, end_date]`; then convert the four numeric fields,
skipping the record if any conversion raises; a usable record contributes
one point to every series. -/
def extract_point (start_date end_date : Date) (neo : NeoRec) : Option NeoPoint :=
  let neo_date_str := neo.caDate.getD ""
  if neo_date_str = "" then none
  else
    match parse_date (clean_to_date_only neo_date_str) with
    | none => none
    | some neo_date =>
      if dateLe start_date neo_date && dateLe neo_date end_date then
        match py_float neo.vRel, py_float_dist neo.distNom neo.distMin,
              py_float neo.hmag, py_float neo.rarity with
        | some v, some di, some m, some r => some ⟨v, di, m, r, neo_date.day⟩
        | _, _, _, _ => none
      else none

def list_max : List Int → Int
  | [] => 0
  | x :: xs => xs.foldl max x

def list_min : List Int → Int
  | [] => 0
  | x :: xs => xs.foldl min x

/-- What `plt.savefig` leaves for the `kind` branch of `worker.do_work`
(lines 126–164), given the nonempty filtered series:
* `kind == '1'` saves the hexbin plot to `/app/{jobid}_plot.png`;
* `kind == '2'` first normalizes the magnitudes by
  `(mag - min_mag) / (max_mag - min_mag)`; when all magnitudes are equal
  this divides by zero and the uncaught `ZeroDivisionError` escapes,
  otherwise the scatter plot is saved;
* any other kind only logs `'Value for kind is invalid'` and saves no file. -/
inductive PlotStep where
  | saved (f : RVal)
  | raised (e : String)
  | no_file

def plot_step (kind : String) (pts : List NeoPoint) : PlotStep :=
  if kind = "1" then .saved (.plot "1" pts)
  else if kind = "2" then
    if list_max (pts.map NeoPoint.hmag) = list_min (pts.map NeoPoint.hmag) then
      .raised "ZeroDivisionError"
    else .saved (.plot "2" pts)
  else .no_file

/-- The scan of the full object store (`for key in rd.keys('*')`),
collecting the series of usable records. -/
def scan_points (s : Sys) (start_date end_date : Date) : List NeoPoint :=
  s.catalog.filterMap fun kv => extract_point start_date end_date kv.2

/-- The state after `update_job_status(jobid, "in progress")` succeeds on
record `job` (worker.py line 40). -/
def in_progress_state (s : Sys) (jobid : String) (job : JobRec) : Sys :=
  { s with jdb := s.jdb.set jobid { job with status := "in progress" } }

/-- The state after `update_job_status(jobid, "complete")` (worker.py line
167): the record re-read at that point is `job` with status
`"in progress"`, and its status is overwritten with `"complete"`. -/
def complete_state (s : Sys) (jobid : String) (job : JobRec) : Sys :=
  { s with jdb := s.jdb.set jobid { job with status := "complete" } }

/-- `worker.do_work` on one dequeued job id, returning the state as left
in Redis together with the call's outcome (`.error` = the exception that
escapes the function).

* Record absent: `update_job_status(jobid, "in progress")` raises, and the
  handler's `update_job_status(jobid, "failed")` raises identically on the
  same absent record; that second exception escapes with nothing written.
* Record present: the status is set to `"in progress"`; the re-read of
  `jdb.get(jobid)` then necessarily succeeds (the guard at line 50 cannot
  fire), and the stored `start`/`end` strings are parsed; a parse failure
  becomes the uncaught `ValueError("Invalid job data: ...")` of line 64.
* An empty filtered series is the uncaught `ValueError` of line 124.
* Otherwise the `kind` branch runs (`plot_step`); then
  `update_job_status(jobid, "complete")` (line 167, before any result
  write); then the plot file is read back and stored under
  `f"{jobid}_output_plot"` (line 181) — when no file was saved (invalid
  kind) the bare `except` handler reads the unbound `file_bytes` and the
  `NameError` escapes after the Complete write, storing no result. -/
def do_work (s : Sys) (jobid : String) : Sys × Except String Unit :=
  match s.jdb jobid with
  | none => (s, .error "Exception: job record not found")
  | some job =>
    match parse_date job.start, parse_date job.«end» with
    | some start_date, some end_date =>
      if (scan_points s start_date end_date).isEmpty then
        (in_progress_state s jobid job,
         .error "ValueError: No valid NEO data found in date range")
      else
        match plot_step job.kind (scan_points s start_date end_date) with
        | .raised e => (in_progress_state s jobid job, .error e)
        | .saved f =>
          ({ complete_state (in_progress_state s jobid job) jobid job with
              rdb := s.rdb.set (jobid ++ "_output_plot") f }, .ok ())
        | .no_file =>
          (complete_state (in_progress_state s jobid job) jobid job,
           .error "NameError: name file_bytes is not defined")
    | _, _ => (in_progress_state s jobid job, .error "ValueError: Invalid job data")

/-! ## NEO_api.py — POST /jobs -/

/-- The JSON body of a `POST /jobs` request (each key may be absent). -/
structure JobParams where
  start_date : Option String
  end_date : Option String
  kind : Option String

/-- The month abbreviations of the validation regex (case-sensitive). -/
def month_abbrevs : List String :=
  ["Jan", "Feb", "Mar", "Apr", "May", "Jun",
   "Jul", "Aug", "Sep", "Oct", "Nov", "Dec"]

/-- `re.match` against `^\d{4}-(Jan|...|Dec)-\d{2}$`: four digits, a dash,
an exact month abbreviation, a dash, two digits, nothing else (neither
digits nor the abbreviations contain a dash, so a full match has exactly
two dashes). -/
def matches_date_pattern (s : String) : Bool :=
  match str_split_on '-' s with
  | [y, m, d] =>
    y.length == 4 && str_all_digits y && decide (m ∈ month_abbrevs)
      && d.length == 2 && str_all_digits d
  | _ => false

/-- `s.split('-')[0]` etc., as used by the same-month and day checks. -/
def date_part (s : String) (i : Nat) : String :=
  (str_split_on '-' s).getD i ""

/-- `int(s.split('-')[2])`; after the pattern check this is two digits, so
`int` cannot raise. -/
def day_component (s : String) : Nat :=
  (str_to_nat? (date_part s 2)).getD 0

/-- The response of the `POST /jobs` route. -/
inductive CreateJobResp where
  | ok (job : JobRec)
  | err (msg : String)
deriving DecidableEq

/-- `NEO_api.create_job`, validation in source order: missing body, missing
parameters, the date regex and the kind set, the same-calendar-month check
for kind `"2"`, and finally the range check — which compares only
`int(start_date.split('-')[2])` with `int(end_date.split('-')[2])`, the
day-of-month components.  (The `ID` list built from `rd.keys()` is a list
and never `None`, so the `if ID is None` guard is dead and has no
observable effect.)  On success `add_job` runs with the fresh id `jid`. -/
def create_job (s : Sys) (body : Option JobParams) (jid : String) :
    Sys × CreateJobResp :=
  match body with
  | none => (s, .err "Error, invalid input for job")
  | some params =>
    match params.start_date, params.end_date, params.kind with
    | some start_date, some end_date, some kind =>
      if ¬ matches_date_pattern start_date ∨ ¬ matches_date_pattern end_date
          ∨ (kind ≠ "1" ∧ kind ≠ "2") then
        (s, .err "Invalid date or kind parameter entered")
      else if kind = "2" ∧ (date_part start_date 0 ≠ date_part end_date 0
          ∨ date_part start_date 1 ≠ date_part end_date 1) then
        (s, .err "For Job 2, the start and end dates must be in the same month")
      else if day_component start_date > day_component end_date then
        (s, .err "Start date must be before end date")
      else
        ((add_job s jid start_date end_date kind).1,
         .ok (add_job s jid start_date end_date kind).2)
    | _, _, _ =>
      (s, .err "Error missing start_date or end_date parameters or kind parameters")

/-! ## System transitions -/

/-- Initial state: empty job store, result store and queue, an arbitrary
pre-loaded object catalog. -/
def initSys (catalog : List (String × NeoRec)) : Sys :=
  { catalog := catalog, queue := [], jdb := Store.empty, rdb := Store.empty }

/-- One step of the job subsystem: a submission (`add_job` with a fresh
UUID — `uuid.uuid4()` never collides with an existing record), or a worker
dequeuing the front of the FIFO queue and running `do_work` on it. -/
inductive Step : Sys → Sys → Prop where
  | submit (s : Sys) (jid start endd kind : String)
      (fresh : s.jdb jid = none) :
      Step s (add_job s jid start endd kind).1
  | work (s : Sys) (jid : String) (rest : List String)
      (hq : s.queue = jid :: rest) :
      Step s (do_work { s with queue := rest } jid).1

/-- States reachable from an initial state by submissions and worker runs. -/
inductive Reachable : Sys → Prop where
  | init (catalog : List (String × NeoRec)) : Reachable (initSys catalog)
  | step {s s' : Sys} : Reachable s → Step s s' → Reachable s'

/-! ## Queue invariant and reachability -/

/-- Invariant of every reachable state: queue entries are distinct, and
every queued id has a job record that is still in status `"submitted"`
(ids are enqueued only by `add_job`, which has just saved the record, and
a worker removes an id from the queue before touching its record). -/
def QueueInv (s : Sys) : Prop :=
  s.queue.Nodup ∧ ∀ jid ∈ s.queue, ∃ r, s.jdb jid = some r ∧ r.status = "submitted"

/-! ## Concrete fixtures

A one-record catalog and a few concrete runs of the system, used to
instantiate the theorems below on closed inputs. -/

/-- A catalog record whose close-approach date `2025-Jan-15 04:00` parses
and whose numeric fields all convert. -/
def neoA : NeoRec :=
  { caDate := some "2025-Jan-15 04:00", vRel := .num 10, distNom := .num 1,
    distMin := .missing, hmag := .num 20, rarity := .num 3 }

def catalogA : List (String × NeoRec) := [("2025-Jan-15 04:00", neoA)]

def sysA0 : Sys := initSys catalogA

/-- After submitting job `"jobA"` over January 2025, kind 1. -/
def sysA1 : Sys := (add_job sysA0 "jobA" "2025-Jan-01" "2025-Jan-31" "1").1

/-- `sysA1` with `"jobA"` dequeued, as a worker sees it. -/
def sysA1d : Sys := { sysA1 with queue := [] }

/-- After the worker has run `"jobA"` to completion. -/
def sysA2 : Sys := (do_work sysA1d "jobA").1

/-- A submission that passes `create_job`'s regex validation but whose
dates `strptime` rejects (2025-Feb-30 is not a calendar date), dequeued. -/
def sysB0 : Sys :=
  { (create_job (initSys [])
      (some ⟨some "2025-Feb-30", some "2025-Feb-30", some "1"⟩) "jobBad").1
    with queue := [] }

/-- A valid submission over January 2025 against an empty object store,
dequeued: its date range matches zero records. -/
def sysC0 : Sys :=
  { (create_job (initSys [])
      (some ⟨some "2025-Jan-01", some "2025-Jan-31", some "1"⟩) "jobC").1
    with queue := [] }

/-- `POST /jobs` body with start after end as calendar dates but day-of-
month in order: `2025-Feb-01` .. `2025-Jan-02`. -/
def paramsBadOrder : JobParams :=
  ⟨some "2025-Feb-01", some "2025-Jan-02", some "1"⟩

/-- `POST /jobs` body with start before end as calendar dates but day-of-
month out of order: `2025-Jan-31` .. `2025-Feb-01`. -/
def paramsGoodOrder : JobParams :=
  ⟨some "2025-Jan-31", some "2025-Feb-01", some "1"⟩

/-- A job record with the unsupported kind `"3"` over a range matching one
record, dequeued (such records arise from direct `add_job` calls, which do
not validate). -/
def sysD0 : Sys :=
  { (add_job (initSys catalogA) "jobD" "2025-Jan-01" "2025-Jan-31" "3").1
    with queue := [] }


/-! ## Basic store and state lemmas -/

theorem Store.set_self (st : Store α) (k : String) (v : α) : st.set k v k = some v := by
  simp [Store.set]

theorem Store.set_other (st : Store α) (k x : String) (v : α) (hx : x ≠ k) :
    st.set k v x = st x := by
  simp [Store.set, hx]

theorem add_job_queue (s : Sys) (jid start endd kind : String) :
    (add_job s jid start endd kind).1.queue = s.queue ++ [jid] := rfl

theorem add_job_jdb (s : Sys) (jid start endd kind : String) :
    (add_job s jid start endd kind).1.jdb
      = s.jdb.set jid (_instantiate_job jid "submitted" start endd kind) := rfl

theorem add_job_rdb (s : Sys) (jid start endd kind : String) :
    (add_job s jid start endd kind).1.rdb = s.rdb := rfl

theorem add_job_job (s : Sys) (jid start endd kind : String) :
    (add_job s jid start endd kind).2 = ⟨jid, "submitted", start, endd, kind⟩ := rfl

/-- `do_work` never touches the queue. -/
theorem do_work_queue (s : Sys) (jobid : String) :
    (do_work s jobid).1.queue = s.queue := by
  unfold do_work
  repeat' split
  all_goals rfl

/-- `do_work` never touches the catalog. -/
theorem do_work_catalog (s : Sys) (jobid : String) :
    (do_work s jobid).1.catalog = s.catalog := by
  unfold do_work
  repeat' split
  all_goals rfl

/-- `do_work jobid` writes the job store only at key `jobid`. -/
theorem do_work_jdb_frame (s : Sys) (jobid x : String) (hx : x ≠ jobid) :
    (do_work s jobid).1.jdb x = s.jdb x := by
  unfold do_work
  repeat' split
  all_goals simp [in_progress_state, complete_state, Store.set, hx]

theorem queueInv_init (catalog : List (String × NeoRec)) :
    QueueInv (initSys catalog) := by
  constructor
  · exact List.nodup_nil
  · intro jid h
    cases h

theorem queueInv_submit (s : Sys) (jid start endd kind : String)
    (fresh : s.jdb jid = none) (h : QueueInv s) :
    QueueInv (add_job s jid start endd kind).1 := by
  obtain ⟨hnd, hrec⟩ := h
  have hnotmem : jid ∉ s.queue := by
    intro hm
    obtain ⟨r, hr, _⟩ := hrec jid hm
    rw [fresh] at hr
    cases hr
  constructor
  · rw [add_job_queue]
    refine List.Nodup.append hnd (List.nodup_singleton jid) ?_
    intro a ha hb
    have : a = jid := by simpa using hb
    exact hnotmem (this ▸ ha)
  · intro x hx
    rw [add_job_queue] at hx
    rw [add_job_jdb]
    rcases List.mem_append.mp hx with hx | hx
    · obtain ⟨r, hr, hst⟩ := hrec x hx
      have hne : x ≠ jid := by
        rintro rfl
        rw [fresh] at hr
        cases hr
      exact ⟨r, by rw [Store.set_other _ _ _ _ hne]; exact hr, hst⟩
    · have hxe : x = jid := by simpa using hx
      subst hxe
      exact ⟨_, Store.set_self _ _ _, rfl⟩

theorem queueInv_work (s : Sys) (jid : String) (rest : List String)
    (hq : s.queue = jid :: rest) (h : QueueInv s) :
    QueueInv (do_work { s with queue := rest } jid).1 := by
  obtain ⟨hnd, hrec⟩ := h
  rw [hq] at hnd
  constructor
  · rw [do_work_queue]
    exact hnd.of_cons
  · intro x hx
    rw [do_work_queue] at hx
    have hxne : x ≠ jid := by
      rintro rfl
      exact (List.nodup_cons.mp hnd).1 hx
    rw [do_work_jdb_frame _ _ _ hxne]
    exact hrec x (by rw [hq]; exact List.mem_cons_of_mem _ hx)

theorem reachable_inv {s : Sys} (h : Reachable s) : QueueInv s := by
  induction h with
  | init catalog => exact queueInv_init catalog
  | step hr hst ih =>
    cases hst with
    | submit jid start endd kind fresh =>
      exact queueInv_submit _ jid start endd kind fresh ih
    | work jid rest hq =>
      exact queueInv_work _ jid rest hq ih

/-- One system step never rewrites a record whose status is terminal:
a submission uses a fresh id, and a worker only writes the record of the
id it dequeued, whose status the queue invariant pins to `"submitted"`. -/
theorem terminal_stable_step {s s' : Sys} (hr : Reachable s) (hst : Step s s')
    (j : String) (r : JobRec) (hj : s.jdb j = some r)
    (hterm : r.status = "complete" ∨ r.status = "failed") :
    s'.jdb j = some r := by
  cases hst with
  | submit jid start endd kind fresh =>
    have hne : j ≠ jid := by
      rintro rfl
      rw [fresh] at hj
      cases hj
    rw [add_job_jdb, Store.set_other _ _ _ _ hne]
    exact hj
  | work jid rest hq =>
    obtain ⟨_, hrec⟩ := reachable_inv hr
    obtain ⟨r', hr', hsub⟩ := hrec jid (by rw [hq]; exact List.mem_cons_self _ _)
    have hne : j ≠ jid := by
      rintro rfl
      rw [hj] at hr'
      injection hr' with he
      subst he
      rcases hterm with h | h <;> rw [h] at hsub <;> exact absurd hsub (by decide)
    rw [do_work_jdb_frame _ _ _ hne]
    exact hj

theorem reachable_steps {s s' : Sys} (hr : Reachable s)
    (h : Relation.ReflTransGen Step s s') : Reachable s' := by
  induction h with
  | refl => exact hr
  | tail _ hstep ih => exact Reachable.step ih hstep

theorem reachable_sysA1 : Reachable sysA1 :=
  Reachable.step (Reachable.init catalogA)
    (Step.submit sysA0 "jobA" "2025-Jan-01" "2025-Jan-31" "1" rfl)

theorem reachable_sysA2 : Reachable sysA2 :=
  Reachable.step reachable_sysA1 (Step.work sysA1 "jobA" [] rfl)

/-! ## Claims -/

/-- Claim C5: a job record whose status is terminal (`"complete"` or
`"failed"`) is never written again: across any sequence of later system
steps (submissions with fresh ids, worker runs) the record — in particular
its status — is unchanged, so there is no regression to Submitted or
InProgress and no Complete/Failed flip in either direction. -/
theorem c5_terminal_stable {s s' : Sys} (hr : Reachable s)
    (hsteps : Relation.ReflTransGen Step s s') (j : String) (r : JobRec)
    (hj : s.jdb j = some r)
    (hterm : r.status = "complete" ∨ r.status = "failed") :
    s'.jdb j = some r := by
  induction hsteps with
  | refl => exact hj
  | tail hab hstep ih =>
    exact terminal_stable_step (reachable_steps hr hab) hstep j r ih hterm

/-- Witness for C5: in the concrete run, `"jobA"` is Complete in `sysA2`,
and a further submission leaves its record untouched. -/
theorem c5_terminal_stable_witness :
    ((add_job sysA2 "jobB" "2025-Feb-01" "2025-Feb-10" "1").1).jdb "jobA"
      = some ⟨"jobA", "complete", "2025-Jan-01", "2025-Jan-31", "1"⟩ :=
  c5_terminal_stable reachable_sysA2
    (Relation.ReflTransGen.single
      (Step.submit sysA2 "jobB" "2025-Feb-01" "2025-Feb-10" "1" (by decide)))
    "jobA" ⟨"jobA", "complete", "2025-Jan-01", "2025-Jan-31", "1"⟩
    (by decide) (Or.inl rfl)

/-- Claim C9: `add_job` saves the record before queueing the id, so in
every reachable state every id on the work queue has a job record (a
dequeuing worker never sees an id with no record). -/
theorem c9_queued_ids_have_records {s : Sys} (hr : Reachable s) :
    ∀ jid ∈ s.queue, ∃ r, get_job_by_id s.jdb jid = some r := by
  intro jid hjid
  obtain ⟨_, hrec⟩ := reachable_inv hr
  obtain ⟨r, h1, _⟩ := hrec jid hjid
  exact ⟨r, h1⟩

/-- Witness for C9: in the concrete post-submission state the queued id
`"jobA"` has a record. -/
theorem c9_queued_ids_have_records_witness :
    ∃ r, get_job_by_id sysA1.jdb "jobA" = some r :=
  c9_queued_ids_have_records reachable_sysA1 "jobA" (by decide)

/-- The result-store key the worker writes is never the bare job id. -/
theorem jobid_ne_plot_key (jobid : String) : jobid ≠ jobid ++ "_output_plot" := by
  intro h
  have hlen := congrArg String.length h
  have h12 : ("_output_plot" : String).length = 12 := rfl
  rw [String.length_append, h12] at hlen
  omega

/-- Counterexample to Claim C1 at a concrete reachable state: after the
worker completes `"jobA"`, the job's status is Complete yet
`get_job_result` for that id returns nothing — a Result is not retrievable
by the job id even though the job is Complete. -/
theorem c1_counterexample :
    Reachable sysA2 ∧
    (sysA2.jdb "jobA").map JobRec.status = some "complete" ∧
    get_job_result sysA2.rdb "jobA" = none :=
  ⟨reachable_sysA2, by decide, rfl⟩

/-- Claim C1 (amended): on every successful worker run the job ends
Complete, the artifact is stored — but under the key
`jobid ++ "_output_plot"`, not the job id, and only after the Complete
write (worker.py line 167 precedes line 181), so the by-id result lookup
is exactly what it was before the run. -/
theorem c1_amended (s : Sys) (jobid : String)
    (h : (do_work s jobid).2 = .ok ()) :
    ((do_work s jobid).1.jdb jobid).map JobRec.status = some "complete" ∧
    (do_work s jobid).1.rdb (jobid ++ "_output_plot") ≠ none ∧
    (do_work s jobid).1.rdb jobid = s.rdb jobid := by
  revert h
  unfold do_work
  repeat' split
  all_goals intro h
  all_goals simp at h
  refine ⟨?_, ?_, ?_⟩
  · simp [complete_state, in_progress_state, Store.set]
  · simp [Store.set_self]
  · exact Store.set_other _ _ _ _ (jobid_ne_plot_key jobid)

/-- Witness for the amended C1 at a concrete successful run. -/
theorem c1_amended_witness :
    ((do_work sysA1d "jobA").1.jdb "jobA").map JobRec.status = some "complete" ∧
    (do_work sysA1d "jobA").1.rdb ("jobA" ++ "_output_plot") ≠ none ∧
    (do_work sysA1d "jobA").1.rdb "jobA" = sysA1d.rdb "jobA" :=
  c1_amended sysA1d "jobA" rfl

/-- Counterexample to Claim C2 at a concrete input: on job `"jobBad"` the
parameter-loading step raises (`parse_date` fails), the exception escapes
`do_work`, and the job is left InProgress — no Failed status is written. -/
theorem c2_counterexample :
    (do_work sysB0 "jobBad").2 = .error "ValueError: Invalid job data" ∧
    ((do_work sysB0 "jobBad").1.jdb "jobBad").map JobRec.status = some "in progress" :=
  ⟨rfl, by decide⟩

/-- Claim C2 (amended): `do_work` has no Failed-writing exit path at all.
When the record of a dequeued job exists and the run ends in an unhandled
exception, the job is left InProgress (steps 3–6 failures) or Complete
(the invalid-kind path) — never Failed, so a job hit by an unexpected
error does remain stuck. -/
theorem c2_amended (s : Sys) (jobid e : String) (job : JobRec)
    (hj : s.jdb jobid = some job)
    (herr : (do_work s jobid).2 = .error e) :
    ((do_work s jobid).1.jdb jobid).map JobRec.status = some "in progress" ∨
    ((do_work s jobid).1.jdb jobid).map JobRec.status = some "complete" := by
  clear herr
  simp only [do_work, hj]
  repeat' split
  all_goals first
    | (left; simp [in_progress_state, complete_state, Store.set]; done)
    | (right; simp [in_progress_state, complete_state, Store.set]; done)

/-- Witness for the amended C2 at the concrete stuck run. -/
theorem c2_amended_witness :
    ((do_work sysB0 "jobBad").1.jdb "jobBad").map JobRec.status = some "in progress" ∨
    ((do_work sysB0 "jobBad").1.jdb "jobBad").map JobRec.status = some "complete" :=
  c2_amended sysB0 "jobBad" "ValueError: Invalid job data"
    ⟨"jobBad", "submitted", "2025-Feb-30", "2025-Feb-30", "1"⟩ (by decide) rfl

/-- Counterexample to Claim C3 at a concrete input: with zero usable
records in range the worker raises and stops, but the job's status is left
InProgress, not Failed (no Result is stored, as the claim says). -/
theorem c3_counterexample :
    (do_work sysC0 "jobC").2
      = .error "ValueError: No valid NEO data found in date range" ∧
    ((do_work sysC0 "jobC").1.jdb "jobC").map JobRec.status = some "in progress" ∧
    get_job_result (do_work sysC0 "jobC").1.rdb "jobC" = none :=
  ⟨rfl, by decide, rfl⟩

/-- Claim C3 (amended): on a job whose date range matches zero usable
records, the worker raises `ValueError("No valid NEO data found in date
range")`, stores no Result (the result store is untouched), and leaves the
job InProgress rather than transitioning it to Failed. -/
theorem c3_amended (s : Sys) (jobid : String) (job : JobRec) (sd ed : Date)
    (hj : s.jdb jobid = some job)
    (hs : parse_date job.start = some sd)
    (he : parse_date job.«end» = some ed)
    (hempty : scan_points s sd ed = []) :
    (do_work s jobid).2 = .error "ValueError: No valid NEO data found in date range" ∧
    ((do_work s jobid).1.jdb jobid).map JobRec.status = some "in progress" ∧
    (do_work s jobid).1.rdb = s.rdb := by
  simp only [do_work, hj, hs, he, hempty]
  refine ⟨rfl, ?_, rfl⟩
  simp [in_progress_state, Store.set]

/-- Witness for the amended C3 at the concrete empty-catalog run. -/
theorem c3_amended_witness :
    (do_work sysC0 "jobC").2 = .error "ValueError: No valid NEO data found in date range" ∧
    ((do_work sysC0 "jobC").1.jdb "jobC").map JobRec.status = some "in progress" ∧
    (do_work sysC0 "jobC").1.rdb = sysC0.rdb :=
  c3_amended sysC0 "jobC" ⟨"jobC", "submitted", "2025-Jan-01", "2025-Jan-31", "1"⟩
    ⟨2025, 1, 1⟩ ⟨2025, 1, 31⟩ (by decide) (by decide) (by decide) rfl

/-- Claim C4 (code bug), evaluated at the failing inputs: `create_job`
compares only the day-of-month fields, so the submission
`2025-Feb-01 .. 2025-Jan-02` — whose start is after its end as full
calendar dates — is accepted (a job is created and queued), while
`2025-Jan-31 .. 2025-Feb-01` — in correct calendar order — is rejected
with the route's range error "Start date must be before end date". -/
theorem c4_code_bug_eval :
    ((create_job (initSys []) (some paramsBadOrder) "jobE").2
        = .ok ⟨"jobE", "submitted", "2025-Feb-01", "2025-Jan-02", "1"⟩
      ∧ (create_job (initSys []) (some paramsBadOrder) "jobE").1.queue = ["jobE"]
      ∧ get_job_by_id (create_job (initSys []) (some paramsBadOrder) "jobE").1.jdb "jobE"
        = some ⟨"jobE", "submitted", "2025-Feb-01", "2025-Jan-02", "1"⟩
      ∧ parse_date "2025-Feb-01" = some ⟨2025, 2, 1⟩
      ∧ parse_date "2025-Jan-02" = some ⟨2025, 1, 2⟩
      ∧ dateLe ⟨2025, 2, 1⟩ ⟨2025, 1, 2⟩ = false) ∧
    ((create_job (initSys []) (some paramsGoodOrder) "jobF").2
        = .err "Start date must be before end date"
      ∧ (create_job (initSys []) (some paramsGoodOrder) "jobF").1.queue = []
      ∧ dateLe ⟨2025, 1, 31⟩ ⟨2025, 2, 1⟩ = true) := by
  decide

/-- Claim C6 (code bug), evaluated at the failing input: on kind `"3"` the
worker logs `'Value for kind is invalid'` but still writes status Complete
(worker.py line 167); it then crashes with a `NameError` on the unbound
`file_bytes` and stores no result.  The claim (and the spec) demand a
Failed transition instead. -/
theorem c6_code_bug_eval :
    (do_work sysD0 "jobD").2 = .error "NameError: name file_bytes is not defined" ∧
    ((do_work sysD0 "jobD").1.jdb "jobD").map JobRec.status = some "complete" ∧
    (do_work sysD0 "jobD").1.rdb ("jobD" ++ "_output_plot") = none ∧
    get_job_result (do_work sysD0 "jobD").1.rdb "jobD" = none :=
  ⟨rfl, by decide, rfl, rfl⟩

/-- Claim C7: whenever `create_job` accepts a submission, looking up the
returned job's id immediately afterwards (before any worker runs) yields a
record in status `"submitted"` whose start, end and kind equal the
submitted parameters. -/
theorem c7_submit_then_get (s : Sys) (p : JobParams) (jid : String) (job : JobRec)
    (h : (create_job s (some p) jid).2 = .ok job) :
    get_job_by_id (create_job s (some p) jid).1.jdb job.id = some job ∧
    job.status = "submitted" ∧
    p.start_date = some job.start ∧
    p.end_date = some job.«end» ∧
    p.kind = some job.kind := by
  revert h
  unfold create_job
  repeat' split
  all_goals intro h
  all_goals try exact CreateJobResp.noConfusion h
  injection h with h
  subst h
  rw [add_job_job]
  simp_all [get_job_by_id, add_job, _save_job, _instantiate_job, Store.set]

/-- Witness for C7 at a concrete accepted submission. -/
theorem c7_submit_then_get_witness :
    get_job_by_id
        (create_job (initSys [])
          (some ⟨some "2025-Jan-01", some "2025-Jan-31", some "1"⟩) "jobW").1.jdb
        (⟨"jobW", "submitted", "2025-Jan-01", "2025-Jan-31", "1"⟩ : JobRec).id
      = some ⟨"jobW", "submitted", "2025-Jan-01", "2025-Jan-31", "1"⟩ ∧
    (⟨"jobW", "submitted", "2025-Jan-01", "2025-Jan-31", "1"⟩ : JobRec).status = "submitted" ∧
    (⟨some "2025-Jan-01", some "2025-Jan-31", some "1"⟩ : JobParams).start_date
      = some (⟨"jobW", "submitted", "2025-Jan-01", "2025-Jan-31", "1"⟩ : JobRec).start ∧
    (⟨some "2025-Jan-01", some "2025-Jan-31", some "1"⟩ : JobParams).end_date
      = some (⟨"jobW", "submitted", "2025-Jan-01", "2025-Jan-31", "1"⟩ : JobRec).«end» ∧
    (⟨some "2025-Jan-01", some "2025-Jan-31", some "1"⟩ : JobParams).kind
      = some (⟨"jobW", "submitted", "2025-Jan-01", "2025-Jan-31", "1"⟩ : JobRec).kind :=
  c7_submit_then_get (initSys [])
    ⟨some "2025-Jan-01", some "2025-Jan-31", some "1"⟩ "jobW"
    ⟨"jobW", "submitted", "2025-Jan-01", "2025-Jan-31", "1"⟩ (by decide)

/-- Counterexample to Claim C8 at a concrete input: storing a binary
(bytes) payload through `store_job_result` stores nothing (`json.dumps`
raises `TypeError`, which the function swallows), so fetching by the same
id returns `None`, not byte-identical content. -/
theorem c8_counterexample :
    store_job_result Store.empty "job1" (.bytes [137, 80, 78, 71]) "job1" = none ∧
    get_job_result (store_job_result Store.empty "job1" (.bytes [137, 80, 78, 71])) "job1"
      = none :=
  ⟨rfl, rfl⟩

/-- Claim C8 (amended): for JSON-serializable payloads the round trip holds
— storing a Result and immediately fetching it by the same job id returns
exactly the stored value; a bytes payload, however, is never stored
(`json.dumps` raises and `store_job_result` swallows the error, leaving
the result store untouched). -/
theorem c8_roundtrip (rdb : Store RVal) (jid : String) (v : JVal) (bs : List Nat) :
    get_job_result (store_job_result rdb jid (.jval v)) jid = some v ∧
    store_job_result rdb jid (.bytes bs) = rdb := by
  refine ⟨?_, rfl⟩
  simp [get_job_result, store_job_result, Store.set]

/-- Claim C10: `update_job_status` on an id absent from the job record
store raises (`Exception()`), rather than succeeding silently, creating a
record, or returning a NotFound value; since it raises before any write,
the store is left unchanged (no `.ok` store is ever produced). -/
theorem c10_update_missing_raises (jdb : Store JobRec) (jid status : String)
    (h : get_job_by_id jdb jid = none) :
    update_job_status jdb jid status = .error () := by
  unfold update_job_status
  rw [h]

/-- Witness for C10 on the empty store. -/
theorem c10_update_missing_raises_witness :
    update_job_status Store.empty "missing" "complete" = .error () :=
  c10_update_missing_raises Store.empty "missing" "complete" rfl
